import Mathlib

/-!
Verification development for the Jouvella data-scraper pipeline.

The repository contains three orchestrator variants (`src/index.js`,
`src/index2.js` and one unnamed source, called `part_000` below).  This file
gives a shallow embedding of the parts of those variants that the claims
talk about: the dedup cache and external-log append (`logBusinessSearch`),
the paginated search client (`searchPlaces`), the website-quality
heuristics, the per-hit qualification decisions, the city-grid generator
(`generateCityGrid`), and the per-hit step of the main loops.

Modelling conventions, matching the JavaScript source:
* string-valued record fields use the empty string for an absent (falsy)
  value, since the source only ever tests them for truthiness or compares
  them to non-empty literals;
* numeric fields that the source compares against `undefined` or defaults
  with `||` / a nullish operator are `Option`s;
* ratings are rationals: `Rat` stands in for the JS number;
* external effects (the log append that may throw, the live website fetch
  of `isWebsiteLowBudget`, the page responses of the search service) are
  made explicit inputs: a `Bool` for append success, an `Option Nat` for
  the fetch outcome (body length, `none` on failure), and a list of page
  responses for the search service.
* external calls performed by a step are recorded in the state: appended
  log rows, forwarded leads (paired with the place id they came from), and
  the place ids for which the detail service was invoked.
-/

/-- A row appended to the external log: one sheet row
`[businessName, address, date, placeId]`. -/
structure LogRow where
  businessName : String
  address : String
  date : String
  placeId : String
  deriving DecidableEq

/-- The field set written to the record store for one lead. -/
structure Lead where
  leadName : String
  contactProfileURL : String
  businessName : String
  businessURL : String
  cityState : String
  phone : String
  websiteQuality : String
  deriving DecidableEq

/-- The enriched record returned by the detail service (the fields the
pipeline reads).  String fields use `""` for absent; `user_ratings_total`
and `rating` are `Option`s because the source distinguishes absence. -/
structure Details where
  name : String
  formatted_address : String
  website : String
  formatted_phone_number : String
  user_ratings_total : Option Nat
  rating : Option ℚ
  business_status : String
  deriving DecidableEq

/-- The part of a raw search hit that the pipeline reads. -/
structure Place where
  place_id : String
  name : String
  deriving DecidableEq

/-- Environment for processing one search hit: the raw hit, the detail
service response for it, whether the external log append would succeed if
attempted, and the date string written into the log row. -/
structure HitEvent where
  place : Place
  details : Details
  appendOk : Bool
  date : String
  deriving DecidableEq

/-- Pipeline state during a run: the in-memory dedup cache, the rows
appended to the external log during this run, the leads forwarded to the
record store during this run (paired with the place id they were built
from), the per-bucket admitted counter, and the place ids for which the
detail service was called. -/
structure RunState where
  cache : List String
  log : List LogRow
  store : List (String × Lead)
  newCount : Nat
  enriched : List String
  deriving DecidableEq

/-- State at the start of a bucket iteration: the cache holds whatever the
bulk load produced, nothing has been appended, forwarded or enriched. -/
def initState (cache0 : List String) : RunState :=
  ⟨cache0, [], [], 0, []⟩

/-- JS `a || b` on strings: the empty string is falsy. -/
def jsOr (a b : String) : String := if a = "" then b else a

/-- Helper for `jsIncludes`: does `sub` occur as a contiguous sublist? -/
def listContainsSub (sub : List Char) : List Char → Bool
  | [] => sub.isEmpty
  | c :: t => sub.isPrefixOf (c :: t) || listContainsSub sub t

/-- JS `s.includes(sub)`. -/
def jsIncludes (s sub : String) : Bool := listContainsSub sub.data s.data

/-- JS `s.startsWith(sub)`. -/
def jsStartsWith (s sub : String) : Bool := sub.data.isPrefixOf s.data

/-- Model of `isLoggedInSearchLogCached`: membership test against the in-memory
seen set (`existingPlaceIds.has(placeId)`). -/
def isLoggedInSearchLogCached (cache : List String) (placeId : String) : Bool :=
  decide (placeId ∈ cache)

/-- Model of `logBusinessSearch` (identical in all three variants): return at once
if the id is already cached; otherwise attempt the external append
(`appendOk` says whether the request succeeds) and, only after a
successful append, add the id to the in-memory set.  A failed append is
caught and leaves both the log and the cache unchanged.  Returns the new
`(cache, log)` pair. -/
def logBusinessSearch (appendOk : Bool) (businessName address date placeId : String)
    (cache : List String) (log : List LogRow) : List String × List LogRow :=
  if isLoggedInSearchLogCached cache placeId then (cache, log)
  else if appendOk then
    (placeId :: cache, log ++ [⟨businessName, address, date, placeId⟩])
  else (cache, log)

/-- Shared activity test of index2.js and part_000:
`details.business_status && details.business_status !== "OPERATIONAL"`. -/
def statusBad (d : Details) : Bool :=
  decide (d.business_status ≠ "") && decide (d.business_status ≠ "OPERATIONAL")

/-- The lead object assembled for `addToAirtable` (index.js and index2.js
build exactly these fields). -/
def mkLead (placeId businessName businessURL cityState phone websiteQuality : String) : Lead :=
  { leadName := ""
    contactProfileURL := "https://www.google.com/maps/place/?q=place_id:" ++ placeId
    businessName := businessName
    businessURL := businessURL
    cityState := cityState
    phone := phone
    websiteQuality := websiteQuality }

/-- One page response from the search service: the hits, whether a
continuation token is present, and the explicit error payload (`""` when
absent). -/
structure Page (α : Type) where
  results : List α
  token : Bool
  error : String
  deriving DecidableEq

namespace IndexJs

def NEW_RESULTS_LIMIT : Nat := 20

/-- Pagination loop of `searchPlaces` (src/index.js): concatenate each
page, continue while a continuation token is present and fewer than
`maxResults` hits are accumulated.  The error payload of a page is never
inspected by this variant. -/
def searchLoop {α : Type} (maxResults : Nat) (acc : List α) : List (Page α) → List α
  | [] => acc
  | p :: rest =>
    let acc2 := acc ++ p.results
    if p.token ∧ acc2.length < maxResults then searchLoop maxResults acc2 rest
    else acc2

/-- Model of `searchPlaces` (src/index.js): run the pagination loop from an empty
accumulator over the upstream page responses, then truncate to
`maxResults`. -/
def searchPlaces {α : Type} (maxResults : Nat) (pages : List (Page α)) : List α :=
  (searchLoop maxResults [] pages).take maxResults

/-- Number of page requests the pagination loop issues, mirroring the
loop condition of `searchPlaces` (`acc` is the hit count so far). -/
def numFetchedLoop {α : Type} (maxResults acc : Nat) : List (Page α) → Nat
  | [] => 0
  | p :: rest =>
    if p.token ∧ acc + p.results.length < maxResults then
      1 + numFetchedLoop maxResults (acc + p.results.length) rest
    else 1

/-- Number of pages fetched by `searchPlaces`. -/
def numFetched {α : Type} (maxResults : Nat) (pages : List (Page α)) : Nat :=
  numFetchedLoop maxResults 0 pages

/-- Model of `evaluateWebsiteQuality` (src/index.js). -/
def evaluateWebsiteQuality (url : String) : String :=
  if url = "" then "No Website"
  else if jsIncludes url "linktr.ee" || jsIncludes url "joinblvd.com" ||
      jsIncludes url "square.site" || jsIncludes url "facebook.com" then "Poor"
  else "Decent"

/-- Business name fallback `details.name || place.name` (src/index.js). -/
def businessName (ev : HitEvent) : String := jsOr ev.details.name ev.place.name

/-- One iteration of the inner result loop of the src/index.js
orchestrator.  The `break` once the bucket cap is reached is modelled as
a no-op step (the counter never decreases, so the remaining iterations of
the bucket all take that branch).  Order follows the source: fetch
details, validate fields, dedup-cache check, operational status, contact,
popularity floor, forward to the record store, then the log append. -/
def step (ev : HitEvent) (s : RunState) : RunState :=
  if NEW_RESULTS_LIMIT ≤ s.newCount then s
  else
    let s0 := { s with enriched := s.enriched ++ [ev.place.place_id] }
    let d := ev.details
    let bn := businessName ev
    let address := d.formatted_address
    let placeId := ev.place.place_id
    if bn = "" ∨ address = "" ∨ placeId = "" then s0
    else if isLoggedInSearchLogCached s0.cache placeId then s0
    else if d.business_status ≠ "OPERATIONAL" then s0
    else if d.website = "" ∧ d.formatted_phone_number = "" then s0
    else if d.user_ratings_total.getD 0 < 5 then s0
    else
      let wq := evaluateWebsiteQuality d.website
      let lead := mkLead placeId bn d.website address d.formatted_phone_number wq
      let s1 := { s0 with store := s0.store ++ [(placeId, lead)] }
      let cl := logBusinessSearch ev.appendOk bn address ev.date placeId s1.cache s1.log
      { s1 with cache := cl.1, log := cl.2, newCount := s1.newCount + 1 }

/-- The inner result loop of one (city, point, keyword) bucket. -/
def run (s : RunState) (evs : List HitEvent) : RunState :=
  evs.foldl (fun s ev => step ev s) s

end IndexJs

namespace Index2

def MIN_REVIEWS : Nat := 20
def MIN_RATING : ℚ := 3
def NEW_RESULTS_LIMIT : Nat := 20

/-- Model of `evaluateWebsiteQuality` (src/index2.js): only absence of a real
website matters; social-profile domains count as no website. -/
def evaluateWebsiteQuality (url : String) : String :=
  if url = "" then "No Website"
  else if jsIncludes url "facebook.com" || jsIncludes url "instagram.com" then "No Website"
  else "Has Website"

/-- The qualification decision of the src/index2.js orchestrator:
`addToMainTable = websiteQuality === "No Website"`, then cleared when the
record is non-operational, under-reviewed (`?? 0`), or under-rated
(`?? 5`). -/
def addToMainTable (d : Details) : Bool :=
  let flag := evaluateWebsiteQuality d.website == "No Website"
  if flag &&
      (statusBad d || decide (d.user_ratings_total.getD 0 < MIN_REVIEWS) ||
        decide (d.rating.getD 5 < MIN_RATING)) then false
  else flag

/-- Business name fallback `details.name || place.name || "Unknown"` (src/index2.js). -/
def businessName (ev : HitEvent) : String :=
  jsOr (jsOr ev.details.name ev.place.name) "Unknown"

/-- One iteration of the inner result loop of the src/index2.js
orchestrator: fetch details, dedup-cache check, qualification, forward to
the record store only when admitted, then the log append for every
processed hit regardless of the admission outcome. -/
def step (ev : HitEvent) (s : RunState) : RunState :=
  if NEW_RESULTS_LIMIT ≤ s.newCount then s
  else
    let s0 := { s with enriched := s.enriched ++ [ev.place.place_id] }
    let d := ev.details
    let bn := businessName ev
    let address := d.formatted_address
    let placeId := ev.place.place_id
    if isLoggedInSearchLogCached s0.cache placeId then s0
    else
      let wq := evaluateWebsiteQuality d.website
      let lead := mkLead placeId bn d.website address d.formatted_phone_number wq
      let s1 := if addToMainTable d then
          { s0 with store := s0.store ++ [(placeId, lead)], newCount := s0.newCount + 1 }
        else s0
      let cl := logBusinessSearch ev.appendOk bn address ev.date placeId s1.cache s1.log
      { s1 with cache := cl.1, log := cl.2 }

/-- The inner result loop of one (city, point, keyword) bucket. -/
def run (s : RunState) (evs : List HitEvent) : RunState :=
  evs.foldl (fun s ev => step ev s) s

end Index2

namespace Part000

def MIN_REVIEWS : Nat := 5
def MIN_RATING : ℚ := 3

/-- Pagination loop of `searchPlaces` (part_000): like the index.js loop
but an explicit error payload on any fetched page aborts the whole call
with the upstream message. -/
def searchLoop {α : Type} (maxResults : Nat) (acc : List α) :
    List (Page α) → Except String (List α)
  | [] => .ok acc
  | p :: rest =>
    if p.error ≠ "" then .error p.error
    else
      let acc2 := acc ++ p.results
      if p.token ∧ acc2.length < maxResults then searchLoop maxResults acc2 rest
      else .ok acc2

/-- Model of `searchPlaces` (part_000): the error-aborting paginated search,
truncated to `maxResults` on success. -/
def searchPlaces {α : Type} (maxResults : Nat) (pages : List (Page α)) :
    Except String (List α) :=
  match searchLoop maxResults [] pages with
  | .error e => .error e
  | .ok l => .ok (l.take maxResults)

/-- Model of `isWebsiteLowBudget` (part_000).  Here `fetch` is the outcome of the live
page request: `none` when it fails or times out, `some n` for a response
body of length `n`. -/
def isWebsiteLowBudget (url : String) (fetch : Option Nat) : Bool :=
  if url = "" then true
  else if ! jsStartsWith url "https://" then true
  else if jsIncludes url "wixsite.com" || jsIncludes url "weebly.com" ||
      jsIncludes url "wordpress.com" then true
  else match fetch with
    | none => true
    | some n => if n < 2000 then true else false

/-- Popularity test `user_ratings_total === undefined || user_ratings_total < MIN_REVIEWS`. -/
def reviewsBad (d : Details) : Bool :=
  match d.user_ratings_total with
  | none => true
  | some n => decide (n < MIN_REVIEWS)

/-- Rating test `rating !== undefined && rating < MIN_RATING`. -/
def ratingBad (d : Details) : Bool :=
  match d.rating with
  | none => false
  | some q => decide (q < MIN_RATING)

/-- The admission decision of the part_000 orchestrator for one enriched
record, given the live fetch outcome for its website: a missing website
admits outright, otherwise the low-budget check (which may fetch the
site) decides, and then the activity / popularity / rating composite can
clear the flag. -/
def addToMainTable (d : Details) (fetch : Option Nat) : Bool :=
  let flag := if d.website = "" then true else isWebsiteLowBudget d.website fetch
  if flag && (statusBad d || reviewsBad d || ratingBad d) then false
  else flag

end Part000

/-- Grid offset `searchGridOffset` (0.03 decimal degrees). -/
def searchGridOffset : ℚ := 3 / 100

/-- Model of `generateCityGrid` (identical in src/index.js and src/index2.js): the
center and the four points offset by the grid offset along latitude and
longitude independently, in source order. -/
def generateCityGrid (coord : ℚ × ℚ) : List (ℚ × ℚ) :=
  match coord with
  | (lat, lng) =>
    [(lat, lng),
     (lat + searchGridOffset, lng),
     (lat - searchGridOffset, lng),
     (lat, lng + searchGridOffset),
     (lat, lng - searchGridOffset)]

/-- Place ids of the rows appended to the external log. -/
def logIds (log : List LogRow) : List String := log.map LogRow.placeId

/-- Invariant tying the rows appended during a run to the dedup cache:
every id occurs at most once among the appended rows, and every appended
id is in the cache. -/
def DedupInv (cache : List String) (log : List LogRow) : Prop :=
  ∀ pid : String, (logIds log).count pid ≤ 1 ∧ (pid ∈ logIds log → pid ∈ cache)

/-- Concrete hit for the C1 witness. -/
def eventC1 : HitEvent :=
  ⟨⟨"p1", "Spa P"⟩,
   ⟨"Spa P", "5 Main St", "", "555", some 25, some 4, "OPERATIONAL"⟩,
   true, "2026-01-01"⟩

/-- Concrete hit whose id is already cached, for the C2 counterexample. -/
def eventC2 : HitEvent :=
  ⟨⟨"pid1", "Spa One"⟩,
   ⟨"Spa One", "1 Main St", "https://spa-one.com", "555", some 9, some 4, "OPERATIONAL"⟩,
   true, "2026-01-01"⟩

/-- Concrete hit whose id is already cached, for the C2 witness. -/
def eventC2b : HitEvent :=
  ⟨⟨"pid9", "Spa Nine"⟩,
   ⟨"Spa Nine", "9 Main St", "https://spa-nine.com", "555", some 9, some 4, "OPERATIONAL"⟩,
   true, "2026-01-01"⟩

/-- Concrete non-operational (hence rejected) hit with valid fields, not
in the cache, with a succeeding append, for the C3 counterexample. -/
def eventC3 : HitEvent :=
  ⟨⟨"pid2", "Spa Two"⟩,
   ⟨"Spa Two", "2 Main St", "https://spa-two.com", "555", some 9, some 4, "CLOSED_TEMPORARILY"⟩,
   true, "2026-01-01"⟩

/-- Concrete hit rejected by the index2.js no-website rule, for the C3
witness. -/
def eventC3b : HitEvent :=
  ⟨⟨"pid3", "Spa Three"⟩,
   ⟨"Spa Three", "3 Main St", "https://spa-three.com", "555", some 9, some 4, "OPERATIONAL"⟩,
   true, "2026-01-01"⟩

/-- Concrete page responses where the second page carries an explicit
error payload, for the C4 counterexample. -/
def pagesC4 : List (Page Nat) := [⟨[7], true, ""⟩, ⟨[], false, "REQUEST_DENIED"⟩]

/-- Concrete enriched record with a reachable secure website and passing
activity, popularity and rating rules, for the C6 counterexample. -/
def detailsC6 : Details :=
  ⟨"Glow Spa", "1 Main St", "https://glowspa.com", "555", some 10, some 4, "OPERATIONAL"⟩

/-- Concrete hit with a link-aggregator website (classified Poor) that
passes the activity, contactability and popularity rules, for the C10
witness. -/
def eventC10 : HitEvent :=
  ⟨⟨"pid4", "Spa Four"⟩,
   ⟨"Spa Four", "4 Main St", "https://linktr.ee/spafour", "", some 9, some 4, "OPERATIONAL"⟩,
   true, "2026-01-01"⟩

/-- Rule-by-rule characterisation of the index2.js admission decision. -/
theorem index2_rules_iff (d : Details) :
    Index2.addToMainTable d = true ↔
      (Index2.evaluateWebsiteQuality d.website = "No Website"
        ∧ statusBad d = false
        ∧ ¬ d.user_ratings_total.getD 0 < Index2.MIN_REVIEWS
        ∧ ¬ d.rating.getD 5 < Index2.MIN_RATING) := by
  by_cases h1 : Index2.evaluateWebsiteQuality d.website = "No Website" <;>
    by_cases h2 : statusBad d = true <;>
    by_cases h3 : d.user_ratings_total.getD 0 < Index2.MIN_REVIEWS <;>
    by_cases h4 : d.rating.getD 5 < Index2.MIN_RATING <;>
    simp [Index2.addToMainTable, h1, h2, h3, h4, beq_iff_eq]

/-- Rule-by-rule characterisation of the part_000 admission decision at a
fixed fetch outcome. -/
theorem part000_rules_iff (d : Details) (fetch : Option Nat) :
    Part000.addToMainTable d fetch = true ↔
      ((d.website = "" ∨ Part000.isWebsiteLowBudget d.website fetch = true)
        ∧ statusBad d = false
        ∧ Part000.reviewsBad d = false
        ∧ Part000.ratingBad d = false) := by
  by_cases h1 : d.website = "" <;>
    by_cases h2 : Part000.isWebsiteLowBudget d.website fetch = true <;>
    by_cases h3 : statusBad d = true <;>
    by_cases h4 : Part000.reviewsBad d = true <;>
    by_cases h5 : Part000.ratingBad d = true <;>
    simp [Part000.addToMainTable, h1, h2, h3, h4, h5]

/-- A successful append extends the invariant; a guarded or failed append
leaves the state unchanged, so the invariant survives every call. -/
theorem logBusinessSearch_inv (ok : Bool) (bn a dt pid : String)
    (cache : List String) (log : List LogRow) (h : DedupInv cache log) :
    DedupInv (logBusinessSearch ok bn a dt pid cache log).1
      (logBusinessSearch ok bn a dt pid cache log).2 := by
  by_cases hc : pid ∈ cache
  · simpa [logBusinessSearch, isLoggedInSearchLogCached, hc] using h
  · cases ok
    · simpa [logBusinessSearch, isLoggedInSearchLogCached, hc] using h
    · have hnot : pid ∉ logIds log := fun hm => hc ((h pid).2 hm)
      have hids : logIds (log ++ [⟨bn, a, dt, pid⟩]) = logIds log ++ [pid] := by
        simp [logIds]
      simp only [logBusinessSearch, isLoggedInSearchLogCached, hc, decide_eq_true_eq,
        if_false, if_true, decide_False, Bool.false_eq_true, ite_false, ite_true]
      intro q
      constructor
      · show (logIds (log ++ [⟨bn, a, dt, pid⟩])).count q ≤ 1
        rw [hids, List.count_append]
        by_cases hq : q = pid
        · subst hq
          have h0 : (logIds log).count q = 0 := List.count_eq_zero.mpr hnot
          simp [h0]
        · have h0 : List.count q [pid] = 0 := List.count_eq_zero.mpr (by simp [hq])
          have := (h q).1
          omega
      · intro hm
        rw [hids] at hm
        rcases List.mem_append.mp hm with hm | hm
        · exact List.mem_cons_of_mem _ ((h q).2 hm)
        · simp at hm
          subst hm
          exact List.mem_cons_self _ _

/-- One index2.js step preserves the dedup invariant. -/
theorem step2_dedupInv (ev : HitEvent) (s : RunState) (h : DedupInv s.cache s.log) :
    DedupInv (Index2.step ev s).cache (Index2.step ev s).log := by
  simp only [Index2.step]
  split_ifs with h1 h2 h3
  · exact h
  · exact h
  · exact logBusinessSearch_inv _ _ _ _ _ _ _ h
  · exact logBusinessSearch_inv _ _ _ _ _ _ _ h

/-- A whole index2.js bucket run preserves the dedup invariant. -/
theorem run2_dedupInv (evs : List HitEvent) : ∀ s : RunState, DedupInv s.cache s.log →
    DedupInv (Index2.run s evs).cache (Index2.run s evs).log := by
  induction evs with
  | nil => intro s h; simpa [Index2.run] using h
  | cons e t ih =>
    intro s h
    have hc : Index2.run s (e :: t) = Index2.run (Index2.step e s) t := by
      simp [Index2.run]
    rw [hc]
    exact ih _ (step2_dedupInv e s h)

/-- The cache only grows across a log call. -/
theorem logBusinessSearch_cache_mono (ok : Bool) (bn a dt pid q : String)
    (cache : List String) (log : List LogRow) (h : q ∈ cache) :
    q ∈ (logBusinessSearch ok bn a dt pid cache log).1 := by
  by_cases hc : pid ∈ cache <;> cases ok <;>
    simp [logBusinessSearch, isLoggedInSearchLogCached, hc, h]

/-- The cache only grows across an index2.js step. -/
theorem step2_cache_mono (ev : HitEvent) (s : RunState) (q : String) (h : q ∈ s.cache) :
    q ∈ (Index2.step ev s).cache := by
  simp only [Index2.step]
  split_ifs with h1 h2 h3
  · exact h
  · exact h
  · exact logBusinessSearch_cache_mono _ _ _ _ _ _ _ _ h
  · exact logBusinessSearch_cache_mono _ _ _ _ _ _ _ _ h

/-- A step never forwards a lead for an id that is already cached: the
number of forwards recorded for such an id does not change. -/
theorem step2_store_count (ev : HitEvent) (s : RunState) (q : String) (h : q ∈ s.cache) :
    ((Index2.step ev s).store.map Prod.fst).count q = (s.store.map Prod.fst).count q := by
  simp only [Index2.step]
  split_ifs with h1 h2 h3
  · rfl
  · rfl
  · have hne : q ≠ ev.place.place_id := by
      intro he
      rw [isLoggedInSearchLogCached, decide_eq_true_eq] at h2
      exact h2 (he ▸ h)
    have h0 : List.count q [ev.place.place_id] = 0 :=
      List.count_eq_zero.mpr (by simp [hne])
    simp [List.count_append, h0]
  · rfl

/-- A bucket run never forwards a lead for an id that was already cached
when the run started. -/
theorem run2_store_count (evs : List HitEvent) : ∀ (s : RunState) (q : String), q ∈ s.cache →
    ((Index2.run s evs).store.map Prod.fst).count q = (s.store.map Prod.fst).count q := by
  induction evs with
  | nil => intro s q _; simp [Index2.run]
  | cons e t ih =>
    intro s q h
    have hc : Index2.run s (e :: t) = Index2.run (Index2.step e s) t := by
      simp [Index2.run]
    rw [hc, ih _ q (step2_cache_mono e s q h), step2_store_count e s q h]

/-- Claim C1: during a single orchestrator run, every entity id appears at
most once among the rows appended to the external log (the append inside
logBusinessSearch is guarded by the cache and the cache is updated after a
successful append), and once an entity id is present in the dedup cache no
further lead carrying that id is forwarded to the record store. -/
theorem c1_dedup :
    (∀ (cache0 : List String) (evs : List HitEvent) (pid : String),
        (logIds (Index2.run (initState cache0) evs).log).count pid ≤ 1)
    ∧ (∀ (cache0 : List String) (evs1 evs2 : List HitEvent) (pid : String),
        pid ∈ (Index2.run (initState cache0) evs1).cache →
        ((Index2.run (initState cache0) (evs1 ++ evs2)).store.map Prod.fst).count pid
          = ((Index2.run (initState cache0) evs1).store.map Prod.fst).count pid) := by
  constructor
  · intro cache0 evs pid
    have h0 : DedupInv (initState cache0).cache (initState cache0).log := by
      intro q
      simp [initState, logIds]
    exact (run2_dedupInv evs _ h0 pid).1
  · intro cache0 evs1 evs2 pid h
    have hsplit : Index2.run (initState cache0) (evs1 ++ evs2)
        = Index2.run (Index2.run (initState cache0) evs1) evs2 := by
      simp [Index2.run, List.foldl_append]
    rw [hsplit]
    exact run2_store_count evs2 _ pid h

/-- Witness for C1 at a concrete input: with the id p1 preloaded in the
cache, processing a hit for p1 forwards no additional lead for it. -/
theorem c1_dedup_witness :
    "p1" ∈ (Index2.run (initState ["p1"]) []).cache
    ∧ ((Index2.run (initState ["p1"]) ([] ++ [eventC1])).store.map Prod.fst).count "p1"
        = ((Index2.run (initState ["p1"]) []).store.map Prod.fst).count "p1" :=
  ⟨by decide, c1_dedup.2 ["p1"] [] [eventC1] "p1" (by decide)⟩

/-- Claim C2 counterexample: in the src/index.js orchestrator a hit whose
id is already in the dedup cache is NOT skipped entirely: the
detail-enrichment call is still performed (enrichment happens before the
cache test), even though no store write and no log append occur. -/
theorem c2_counterexample :
    "pid1" ∈ (initState ["pid1"]).cache
    ∧ (IndexJs.run (initState ["pid1"]) [eventC2]).enriched = ["pid1"]
    ∧ (IndexJs.run (initState ["pid1"]) [eventC2]).store = []
    ∧ (IndexJs.run (initState ["pid1"]) [eventC2]).log = [] := by decide

/-- Claim C2 (amended): for a hit whose id is already in the dedup cache,
the src/index.js orchestrator performs no qualification, no record-store
write, no log append and no cache or counter update, but it does perform
the detail-enrichment call, because enrichment precedes the cache test. -/
theorem c2_amended (ev : HitEvent) (s : RunState)
    (hcap : s.newCount < IndexJs.NEW_RESULTS_LIMIT)
    (hcache : ev.place.place_id ∈ s.cache) :
    IndexJs.step ev s = { s with enriched := s.enriched ++ [ev.place.place_id] } := by
  simp only [IndexJs.step]
  rw [if_neg (by omega)]
  by_cases hv : IndexJs.businessName ev = "" ∨ ev.details.formatted_address = ""
      ∨ ev.place.place_id = ""
  · rw [if_pos hv]
  · rw [if_neg hv, if_pos (by simp [isLoggedInSearchLogCached, hcache])]

/-- Witness for the amended C2 at a concrete cached hit. -/
theorem c2_amended_witness :
    (initState ["pid9"]).newCount < IndexJs.NEW_RESULTS_LIMIT
    ∧ eventC2b.place.place_id ∈ (initState ["pid9"]).cache
    ∧ IndexJs.step eventC2b (initState ["pid9"]) =
        { initState ["pid9"] with
          enriched := (initState ["pid9"]).enriched ++ [eventC2b.place.place_id] } :=
  ⟨by decide, by decide, c2_amended eventC2b (initState ["pid9"]) (by decide) (by decide)⟩

/-- Claim C3 counterexample: the src/index.js orchestrator does not log
rejected hits.  A valid, uncached, non-operational hit is enriched and
rejected, and afterwards the run has appended nothing to the log and the
cache is still empty. -/
theorem c3_counterexample :
    (IndexJs.run (initState []) [eventC3]).enriched = ["pid2"]
    ∧ (IndexJs.run (initState []) [eventC3]).store = []
    ∧ (IndexJs.run (initState []) [eventC3]).log = []
    ∧ (IndexJs.run (initState []) [eventC3]).cache = [] := by decide

/-- Claim C3 (amended): in the src/index2.js variant, every processed hit
whose id is not already cached is passed to the log append regardless of
the admission outcome; when the append succeeds the id is appended to the
external log and marked in the dedup cache.  (The src/index.js variant
instead skips rejected hits before logging, per the counterexample.) -/
theorem c3_amended (ev : HitEvent) (s : RunState)
    (hcap : s.newCount < Index2.NEW_RESULTS_LIMIT)
    (hcache : ev.place.place_id ∉ s.cache)
    (hok : ev.appendOk = true) :
    (Index2.step ev s).cache = ev.place.place_id :: s.cache
    ∧ (Index2.step ev s).log = s.log ++
        [⟨Index2.businessName ev, ev.details.formatted_address, ev.date,
          ev.place.place_id⟩] := by
  simp only [Index2.step]
  rw [if_neg (by omega), if_neg (by simp [isLoggedInSearchLogCached, hcache])]
  cases ha : Index2.addToMainTable ev.details <;>
    simp [ha, logBusinessSearch, isLoggedInSearchLogCached, hcache, hok]

/-- Witness for the amended C3 at a concrete rejected hit: the hit fails
the index2.js no-website rule yet is still logged and cached. -/
theorem c3_amended_witness :
    (initState []).newCount < Index2.NEW_RESULTS_LIMIT
    ∧ eventC3b.place.place_id ∉ (initState []).cache
    ∧ eventC3b.appendOk = true
    ∧ Index2.addToMainTable eventC3b.details = false
    ∧ (Index2.step eventC3b (initState [])).cache =
        eventC3b.place.place_id :: (initState []).cache
    ∧ (Index2.step eventC3b (initState [])).log = (initState []).log ++
        [⟨Index2.businessName eventC3b, eventC3b.details.formatted_address, eventC3b.date,
          eventC3b.place.place_id⟩] :=
  ⟨by decide, by decide, by decide, by decide,
   (c3_amended eventC3b (initState []) (by decide) (by decide) (by decide)).1,
   (c3_amended eventC3b (initState []) (by decide) (by decide) (by decide)).2⟩

/-- Claim C4 counterexample: the src/index.js searchPlaces does not fail
when a page response carries an explicit error payload; it returns the
hits accumulated so far. -/
theorem c4_counterexample :
    (⟨[], false, "REQUEST_DENIED"⟩ : Page Nat) ∈ pagesC4
    ∧ IndexJs.searchPlaces 60 pagesC4 = [7] := by decide

/-- Claim C4 (amended): only the part_000 variant has the failing
behaviour: whenever its pagination loop receives a page bearing an
explicit error payload, the whole call fails with the upstream message,
whatever hits were accumulated so far; the index.js and index2.js
variants never inspect the error payload. -/
theorem c4_amended {α : Type} (maxResults : Nat) (acc : List α)
    (p : Page α) (rest : List (Page α)) (h : p.error ≠ "") :
    Part000.searchLoop maxResults acc (p :: rest) = Except.error p.error
    ∧ Part000.searchPlaces maxResults (p :: rest) = Except.error p.error := by
  constructor
  · simp [Part000.searchLoop, h]
  · simp [Part000.searchPlaces, Part000.searchLoop, h]

/-- Witness for the amended C4 at a concrete errored page, with a
non-empty accumulator. -/
theorem c4_amended_witness :
    (⟨[], false, "REQUEST_DENIED"⟩ : Page Nat).error ≠ ""
    ∧ Part000.searchLoop 60 [5] [(⟨[], false, "REQUEST_DENIED"⟩ : Page Nat)] =
        Except.error "REQUEST_DENIED"
    ∧ Part000.searchPlaces 60 [(⟨[], false, "REQUEST_DENIED"⟩ : Page Nat)] =
        Except.error "REQUEST_DENIED" :=
  ⟨by decide, (c4_amended 60 [5] _ [] (by decide)).1, (c4_amended 60 [] _ [] (by decide)).2⟩

/-- The src/index.js pagination loop returns the accumulator followed by
the concatenation of exactly the pages it fetched, whole pages only. -/
theorem searchLoop_eq {α : Type} (m : Nat) (pages : List (Page α)) :
    ∀ acc : List α,
      IndexJs.searchLoop m acc pages =
        acc ++
          ((pages.take (IndexJs.numFetchedLoop m acc.length pages)).map Page.results).flatten := by
  induction pages with
  | nil => intro acc; simp [IndexJs.searchLoop, IndexJs.numFetchedLoop]
  | cons p rest ih =>
    intro acc
    simp only [IndexJs.searchLoop, IndexJs.numFetchedLoop]
    have hlen : (acc ++ p.results).length = acc.length + p.results.length :=
      List.length_append acc p.results
    by_cases h : p.token = true ∧ acc.length + p.results.length < m
    · rw [if_pos ⟨h.1, by rw [hlen]; exact h.2⟩, if_pos h, ih (acc ++ p.results), hlen]
      have h1 : 1 + IndexJs.numFetchedLoop m (acc.length + p.results.length) rest =
          IndexJs.numFetchedLoop m (acc.length + p.results.length) rest + 1 :=
        Nat.add_comm _ _
      rw [h1, List.take_succ_cons, List.map_cons, List.flatten_cons, List.append_assoc]
    · rw [if_neg (fun hc => h ⟨hc.1, by rw [← hlen]; exact hc.2⟩), if_neg h]
      simp

/-- Claim C5: searchPlaces returns at most maxResults hits; its result is
the whole-page concatenation of the fetched pages truncated only at the
very end (never mid-page); and if the first response carries no
continuation token, exactly one page request is issued. -/
theorem c5_pagination :
    (∀ (α : Type) (maxResults : Nat) (pages : List (Page α)),
        (IndexJs.searchPlaces maxResults pages).length ≤ maxResults)
    ∧ (∀ (α : Type) (maxResults : Nat) (pages : List (Page α)),
        IndexJs.searchPlaces maxResults pages =
          (((pages.take (IndexJs.numFetched maxResults pages)).map Page.results).flatten).take
            maxResults)
    ∧ (∀ (α : Type) (maxResults : Nat) (p : Page α) (rest : List (Page α)),
        p.token = false → IndexJs.numFetched maxResults (p :: rest) = 1) := by
  refine ⟨?_, ?_, ?_⟩
  · intro α maxResults pages
    simp only [IndexJs.searchPlaces]
    simp [List.length_take_le]
  · intro α maxResults pages
    simp only [IndexJs.searchPlaces, IndexJs.numFetched]
    rw [searchLoop_eq maxResults pages []]
    simp
  · intro α maxResults p rest h
    simp [IndexJs.numFetched, IndexJs.numFetchedLoop, h]

/-- Witness for C5 at concrete inputs: a two-page response capped at 4
hits, and a first page without a continuation token fetched exactly
once. -/
theorem c5_pagination_witness :
    (IndexJs.searchPlaces 4 [(⟨[1, 2, 3], true, ""⟩ : Page Nat), ⟨[4, 5], false, ""⟩]).length ≤ 4
    ∧ (⟨[1, 2], false, ""⟩ : Page Nat).token = false
    ∧ IndexJs.numFetched 5 [(⟨[1, 2], false, ""⟩ : Page Nat)] = 1 :=
  ⟨c5_pagination.1 Nat 4 [⟨[1, 2, 3], true, ""⟩, ⟨[4, 5], false, ""⟩], by decide,
   c5_pagination.2.2 Nat 5 ⟨[1, 2], false, ""⟩ [] (by decide)⟩

/-- Claim C6 counterexample: the part_000 qualification decision is not a
function of the enriched record alone.  On the same record, a failing
live website fetch yields admit = true while a large successful fetch
yields admit = false. -/
theorem c6_counterexample :
    Part000.addToMainTable detailsC6 none = true
    ∧ Part000.addToMainTable detailsC6 (some 5000) = false
    ∧ Part000.addToMainTable detailsC6 none ≠ Part000.addToMainTable detailsC6 (some 5000) := by decide

/-- Claim C6 (amended): in the src/index2.js variant the qualification
decision is a pure function of the enriched record (its embedding takes
no fetch outcome), and admission implies every configured rule passed:
activity, popularity floor, rating floor and the no-website rule.  In the
part_000 strict-content variant the decision additionally depends on the
live website fetch outcome, per the counterexample. -/
theorem c6_amended (d : Details) (h : Index2.addToMainTable d = true) :
    (d.business_status = "" ∨ d.business_status = "OPERATIONAL")
    ∧ Index2.MIN_REVIEWS ≤ d.user_ratings_total.getD 0
    ∧ Index2.MIN_RATING ≤ d.rating.getD 5
    ∧ Index2.evaluateWebsiteQuality d.website = "No Website" := by
  obtain ⟨hw, hs, hr, hq⟩ := (index2_rules_iff d).mp h
  refine ⟨?_, by omega, le_of_not_lt hq, hw⟩
  by_cases h1 : d.business_status = ""
  · exact Or.inl h1
  · right
    by_contra h2
    simp [statusBad, h1, h2] at hs

/-- Witness for the amended C6 at a concrete admitted record. -/
theorem c6_amended_witness :
    Index2.addToMainTable ⟨"A", "1 Main St", "", "555", some 25, some 4, "OPERATIONAL"⟩ = true
    ∧ ((⟨"A", "1 Main St", "", "555", some 25, some 4, "OPERATIONAL"⟩ : Details).business_status = ""
        ∨ (⟨"A", "1 Main St", "", "555", some 25, some 4, "OPERATIONAL"⟩ : Details).business_status
            = "OPERATIONAL")
    ∧ Index2.MIN_REVIEWS ≤
        (⟨"A", "1 Main St", "", "555", some 25, some 4, "OPERATIONAL"⟩ : Details).user_ratings_total.getD 0
    ∧ Index2.MIN_RATING ≤
        (⟨"A", "1 Main St", "", "555", some 25, some 4, "OPERATIONAL"⟩ : Details).rating.getD 5
    ∧ Index2.evaluateWebsiteQuality
        (⟨"A", "1 Main St", "", "555", some 25, some 4, "OPERATIONAL"⟩ : Details).website
          = "No Website" :=
  ⟨by decide, c6_amended _ (by decide)⟩

/-- Claim C7: in both variants that have a rating floor (part_000 and
src/index2.js), a rating that is present and strictly below the
configured minimum 3.0 forces rejection, while an absent rating never
causes rejection by the rating floor alone: when every other rule passes,
the record is admitted. -/
theorem c7_rating_floor :
    (∀ (d : Details) (fetch : Option Nat) (q : ℚ),
        d.rating = some q → q < Part000.MIN_RATING → Part000.addToMainTable d fetch = false)
    ∧ (∀ (d : Details) (fetch : Option Nat),
        d.rating = none →
        (d.website = "" ∨ Part000.isWebsiteLowBudget d.website fetch = true) →
        statusBad d = false → Part000.reviewsBad d = false →
        Part000.addToMainTable d fetch = true)
    ∧ (∀ (d : Details) (q : ℚ),
        d.rating = some q → q < Index2.MIN_RATING → Index2.addToMainTable d = false)
    ∧ (∀ d : Details,
        d.rating = none →
        Index2.evaluateWebsiteQuality d.website = "No Website" →
        statusBad d = false → ¬ d.user_ratings_total.getD 0 < Index2.MIN_REVIEWS →
        Index2.addToMainTable d = true) := by
  refine ⟨?_, ?_, ?_, ?_⟩
  · intro d fetch q hq hlt
    cases hA : Part000.addToMainTable d fetch
    · rfl
    · obtain ⟨-, -, -, hr⟩ := (part000_rules_iff d fetch).mp hA
      simp [Part000.ratingBad, hq, hlt] at hr
  · intro d fetch hq hw hs hr
    exact (part000_rules_iff d fetch).mpr ⟨hw, hs, hr, by simp [Part000.ratingBad, hq]⟩
  · intro d q hq hlt
    cases hA : Index2.addToMainTable d
    · rfl
    · obtain ⟨-, -, -, hr⟩ := (index2_rules_iff d).mp hA
      rw [hq] at hr
      simp at hr
      exact absurd hlt (not_lt.mpr hr)
  · intro d hq hw hs hr
    refine (index2_rules_iff d).mpr ⟨hw, hs, hr, ?_⟩
    rw [hq]
    simp [Index2.MIN_RATING]
    norm_num

/-- Witness for C7 at concrete records: a low-rated record rejected and an
unrated record admitted, in both variants. -/
theorem c7_rating_floor_witness :
    ((⟨"A", "X", "https://a-site-with-some-more-chars.com", "5", some 9, some 2,
        "OPERATIONAL"⟩ : Details).rating = some 2
      ∧ (2 : ℚ) < Part000.MIN_RATING
      ∧ Part000.addToMainTable
          ⟨"A", "X", "https://a-site-with-some-more-chars.com", "5", some 9, some 2,
            "OPERATIONAL"⟩ none = false)
    ∧ ((⟨"B", "X", "", "5", some 9, none, "OPERATIONAL"⟩ : Details).rating = none
      ∧ Part000.addToMainTable ⟨"B", "X", "", "5", some 9, none, "OPERATIONAL"⟩ none = true)
    ∧ ((⟨"C", "X", "", "5", some 25, some 2, ""⟩ : Details).rating = some 2
      ∧ (2 : ℚ) < Index2.MIN_RATING
      ∧ Index2.addToMainTable ⟨"C", "X", "", "5", some 25, some 2, ""⟩ = false)
    ∧ ((⟨"D", "X", "", "5", some 25, none, ""⟩ : Details).rating = none
      ∧ Index2.addToMainTable ⟨"D", "X", "", "5", some 25, none, ""⟩ = true) :=
  ⟨⟨by decide, by decide, c7_rating_floor.1 _ none 2 (by decide) (by decide)⟩,
   ⟨by decide, c7_rating_floor.2.1 _ none (by decide) (by decide) (by decide) (by decide)⟩,
   ⟨by decide, by decide, c7_rating_floor.2.2.1 _ 2 (by decide) (by decide)⟩,
   ⟨by decide, c7_rating_floor.2.2.2 _ (by decide) (by decide) (by decide) (by decide)⟩⟩

/-- Claim C8: for every center coordinate, generateCityGrid returns
exactly the 5 coordinates center, latitude plus offset, latitude minus
offset, longitude plus offset, longitude minus offset, in that order;
they are pairwise distinct and the first equals the input center. -/
theorem c8_grid (lat lng : ℚ) :
    generateCityGrid (lat, lng) =
      [(lat, lng), (lat + searchGridOffset, lng), (lat - searchGridOffset, lng),
       (lat, lng + searchGridOffset), (lat, lng - searchGridOffset)]
    ∧ (generateCityGrid (lat, lng)).length = 5
    ∧ (generateCityGrid (lat, lng)).head? = some (lat, lng)
    ∧ (generateCityGrid (lat, lng)).Nodup := by
  refine ⟨rfl, rfl, rfl, ?_⟩
  simp only [generateCityGrid, List.nodup_cons, List.mem_cons, List.mem_singleton,
    List.not_mem_nil, List.nodup_nil, Prod.mk.injEq, not_or, searchGridOffset]
  norm_num
  refine ⟨⟨?_, ?_⟩, ?_, ?_⟩ <;> intro h <;> linarith

/-- Claim C9: if the external append inside logBusinessSearch fails, both
the in-memory seen set and the log are left unchanged (so the entity
stays eligible for re-processing in the same run); the id is added to the
cache only when the append succeeds. -/
theorem c9_fail_append (bn address date placeId : String)
    (cache : List String) (log : List LogRow) :
    logBusinessSearch false bn address date placeId cache log = (cache, log)
    ∧ (placeId ∉ cache →
        logBusinessSearch true bn address date placeId cache log =
          (placeId :: cache, log ++ [⟨bn, address, date, placeId⟩])) := by
  constructor
  · by_cases h : placeId ∈ cache <;>
      simp [logBusinessSearch, isLoggedInSearchLogCached, h]
  · intro h
    simp [logBusinessSearch, isLoggedInSearchLogCached, h]

/-- Witness for C9 at a concrete uncached id: a failed append changes
nothing and a successful one both logs and caches. -/
theorem c9_fail_append_witness :
    logBusinessSearch false "Spa B" "8 Main St" "2026-01-01" "p7" [] [] = ([], [])
    ∧ "p7" ∉ ([] : List String)
    ∧ logBusinessSearch true "Spa B" "8 Main St" "2026-01-01" "p7" [] [] =
        (["p7"], [⟨"Spa B", "8 Main St", "2026-01-01", "p7"⟩]) :=
  ⟨(c9_fail_append "Spa B" "8 Main St" "2026-01-01" "p7" [] []).1, by decide,
   (c9_fail_append "Spa B" "8 Main St" "2026-01-01" "p7" [] []).2 (by decide)⟩

/-- Claim C10: in the src/index.js variant the website-quality class never
affects admission.  Every valid, uncached hit passing the activity,
contactability and popularity rules is forwarded to the record store, with
the classification (No Website, Poor or Decent) only stored as the
websiteQuality field of the lead. -/
theorem c10_quality_not_gating (ev : HitEvent) (s : RunState)
    (hcap : s.newCount < IndexJs.NEW_RESULTS_LIMIT)
    (hbn : IndexJs.businessName ev ≠ "")
    (haddr : ev.details.formatted_address ≠ "")
    (hpid : ev.place.place_id ≠ "")
    (hcache : ev.place.place_id ∉ s.cache)
    (hstatus : ev.details.business_status = "OPERATIONAL")
    (hcontact : ev.details.website ≠ "" ∨ ev.details.formatted_phone_number ≠ "")
    (hpop : ¬ ev.details.user_ratings_total.getD 0 < 5) :
    (IndexJs.step ev s).store = s.store ++
      [(ev.place.place_id,
        mkLead ev.place.place_id (IndexJs.businessName ev) ev.details.website
          ev.details.formatted_address ev.details.formatted_phone_number
          (IndexJs.evaluateWebsiteQuality ev.details.website))]
    ∧ (mkLead ev.place.place_id (IndexJs.businessName ev) ev.details.website
          ev.details.formatted_address ev.details.formatted_phone_number
          (IndexJs.evaluateWebsiteQuality ev.details.website)).websiteQuality =
        IndexJs.evaluateWebsiteQuality ev.details.website := by
  refine ⟨?_, rfl⟩
  simp only [IndexJs.step]
  rw [if_neg (by omega),
    if_neg (by push_neg; exact ⟨hbn, haddr, hpid⟩),
    if_neg (by simp [isLoggedInSearchLogCached, hcache]),
    if_neg (by simp [hstatus]),
    if_neg (by rcases hcontact with h | h <;> simp [h]),
    if_neg hpop]

/-- Witness for C10 at a concrete hit classified Poor that is still
forwarded. -/
theorem c10_quality_not_gating_witness :
    IndexJs.evaluateWebsiteQuality eventC10.details.website = "Poor"
    ∧ (IndexJs.step eventC10 (initState [])).store = (initState []).store ++
        [(eventC10.place.place_id,
          mkLead eventC10.place.place_id (IndexJs.businessName eventC10)
            eventC10.details.website eventC10.details.formatted_address
            eventC10.details.formatted_phone_number
            (IndexJs.evaluateWebsiteQuality eventC10.details.website))] :=
  ⟨by decide,
   (c10_quality_not_gating eventC10 (initState []) (by decide) (by decide) (by decide)
      (by decide) (by decide) (by decide) (Or.inl (by decide)) (by decide)).1⟩
